import Mathlib

/-!
Verification development for the Footballers_overall_database rating pipeline.

The rating engine lives in `4_aggregate_player_stats.py` (per-90 rate
computation from aggregated counts) and `5_calculate_player_attributes.py`
(percentile scaling to the 1-20 scale, ~25 sub-attributes, position CAs,
overall CA, and the PA projection).  This file gives a shallow embedding of
those stages over exact rationals: pandas/numpy float values are modelled by
`ℚ`; float division by zero (which pandas maps to `inf`/`NaN`) is modelled by
the extended value type `PVal`; `Series.round(2)` / Python `round(x, 2)` is
modelled by `round2`, round-half-to-even at two decimals; the two numpy
random sources (`np.random.randint(18, 35)` for ages, `np.random.normal` for
the PA uplift) are modelled by explicit streams of draws passed to the
pipeline.
-/

namespace Football

/-- Round-half-to-even to an integer (the tie rule used by numpy/pandas
`round` and Python `round`). -/
def rhe (q : ℚ) : ℤ :=
  if q - ⌊q⌋ < 1/2 then ⌊q⌋
  else if 1/2 < q - ⌊q⌋ then ⌊q⌋ + 1
  else if ⌊q⌋ % 2 = 0 then ⌊q⌋ else ⌊q⌋ + 1

/-- `Series.round(2)` / Python `round(x, 2)`: round to two decimals,
half-to-even. -/
def round2 (q : ℚ) : ℚ := (rhe (q * 100) : ℚ) / 100

theorem rhe_ge_floor (q : ℚ) : ⌊q⌋ ≤ rhe q := by
  unfold rhe
  split_ifs <;> omega

theorem rhe_le_floor_add_one (q : ℚ) : rhe q ≤ ⌊q⌋ + 1 := by
  unfold rhe
  split_ifs <;> omega

theorem rhe_mono {a b : ℚ} (h : a ≤ b) : rhe a ≤ rhe b := by
  have hf : ⌊a⌋ ≤ ⌊b⌋ := Int.floor_le_floor h
  rcases lt_or_eq_of_le hf with hlt | heq
  · calc rhe a ≤ ⌊a⌋ + 1 := rhe_le_floor_add_one a
    _ ≤ ⌊b⌋ := by omega
    _ ≤ rhe b := rhe_ge_floor b
  · have hfr : a - ⌊a⌋ ≤ b - ⌊b⌋ := by rw [heq]; linarith
    unfold rhe
    rw [heq]
    split_ifs with h1 h2 h3 h4 h5 h6 h7 h8 h9 h10 h11 h12 <;>
      first
        | omega
        | (exfalso; linarith)

theorem round2_mono {a b : ℚ} (h : a ≤ b) : round2 a ≤ round2 b := by
  unfold round2
  have h100 : a * 100 ≤ b * 100 := by linarith
  have := rhe_mono h100
  have hc : ((rhe (a * 100) : ℚ)) ≤ ((rhe (b * 100) : ℚ)) := by exact_mod_cast this
  linarith

/-- Minimum of a float series (`Series.min()`), 0 for the empty series. -/
def listMin : List ℚ → ℚ
  | [] => 0
  | x :: xs => xs.foldl min x

/-- Maximum of a float series (`Series.max()`), 0 for the empty series. -/
def listMax : List ℚ → ℚ
  | [] => 0
  | x :: xs => xs.foldl max x

theorem foldl_min_le_init (xs : List ℚ) (a : ℚ) : xs.foldl min a ≤ a := by
  induction xs generalizing a with
  | nil => simp
  | cons x xs ih =>
      calc (x :: xs).foldl min a = xs.foldl min (min a x) := rfl
      _ ≤ min a x := ih (min a x)
      _ ≤ a := min_le_left a x

theorem init_le_foldl_max (xs : List ℚ) (a : ℚ) : a ≤ xs.foldl max a := by
  induction xs generalizing a with
  | nil => simp
  | cons x xs ih =>
      calc a ≤ max a x := le_max_left a x
      _ ≤ xs.foldl max (max a x) := ih (max a x)
      _ = (x :: xs).foldl max a := rfl

theorem listMin_le_listMax {s : List ℚ} (h : s ≠ []) : listMin s ≤ listMax s := by
  match s, h with
  | x :: xs, _ =>
      calc listMin (x :: xs) = xs.foldl min x := rfl
      _ ≤ x := foldl_min_le_init xs x
      _ ≤ xs.foldl max x := init_le_foldl_max xs x
      _ = listMax (x :: xs) := rfl

/-- pandas average-rank: the rank of value `x` inside series `s` with ties
receiving the mean of the positions they occupy. -/
def avgRank (s : List ℚ) (x : ℚ) : ℚ :=
  (s.countP (fun y => decide (y < x)) : ℚ) +
    ((s.countP (fun y => decide (y = x)) : ℚ) + 1) / 2

/-- `Series.rank(pct=True)`: average rank divided by the series length. -/
def rankPct (s : List ℚ) : List ℚ :=
  s.map (fun x => avgRank s x / (s.length : ℚ))

theorem countP_le_split (l : List ℚ) (b : ℚ) :
    l.countP (fun y => decide (y ≤ b)) =
      l.countP (fun y => decide (y < b)) + l.countP (fun y => decide (y = b)) := by
  induction l with
  | nil => simp
  | cons x xs ih =>
      simp only [List.countP_cons, ih]
      rcases lt_trichotomy x b with hx | hx | hx
      · simp [le_of_lt hx, hx, ne_of_lt hx]
        omega
      · simp [le_of_eq hx, hx, lt_irrefl]
        omega
      · simp [not_le.mpr hx, not_lt.mpr (le_of_lt hx), ne_of_gt hx]

theorem countP_mono_of_imp (l : List ℚ) (p q : ℚ → Bool)
    (h : ∀ x, p x = true → q x = true) : l.countP p ≤ l.countP q := by
  induction l with
  | nil => simp
  | cons a as ih =>
      simp only [List.countP_cons]
      by_cases hp : p a = true
      · simp [hp, h a hp]
        omega
      · have hp' : p a = false := by simpa using hp
        simp [hp']
        by_cases hq : q a = true
        · simp [hq]; omega
        · have hq' : q a = false := by simpa using hq
          simp [hq']; omega

theorem avgRank_mono (s : List ℚ) {a b : ℚ} (h : b < a) :
    avgRank s b ≤ avgRank s a := by
  have key : s.countP (fun y => decide (y ≤ b)) ≤ s.countP (fun y => decide (y < a)) := by
    apply countP_mono_of_imp
    intro x hx
    simp only [decide_eq_true_eq] at hx ⊢
    exact lt_of_le_of_lt hx h
  rw [countP_le_split] at key
  unfold avgRank
  have hcast : ((s.countP (fun y => decide (y < b)) : ℚ) +
      (s.countP (fun y => decide (y = b)) : ℚ)) ≤
      (s.countP (fun y => decide (y < a)) : ℚ) := by exact_mod_cast key
  have hEQa : (0 : ℚ) ≤ (s.countP (fun y => decide (y = a)) : ℚ) := by positivity
  have hEQb : (0 : ℚ) ≤ (s.countP (fun y => decide (y = b)) : ℚ) := by positivity
  linarith

/-- `percentile_to_1_20` from `5_calculate_player_attributes.py`.  The series
to scale and the population's `minutes_played` column are parallel lists
(they share the `df_stats` index in the source); `none` entries are the
series' NaNs, mapped to 0 by `fillna(0)`.  The qualifying mask is
`minutes_played >= min_minutes`; `baseline = s[mask]` is computed and its
length tested, but its values are never used.  The fallback branch is the
min-max scaling `((s - s.min()) / (s.max() - s.min() + 1e-8) * 19 + 1)`. -/
def percentile_to_1_20 (series : List (Option ℚ)) (minutes : List ℚ)
    (min_minutes : ℚ) : List ℚ :=
  let s := series.map (fun x => x.getD 0)
  let maskSum := (minutes.filter (fun m => decide (min_minutes ≤ m))).length
  let baseline := ((minutes.zip s).filter (fun p => decide (min_minutes ≤ p.1))).map (fun p => p.2)
  if 0 < maskSum ∧ 0 < baseline.length then
    (rankPct s).map (fun r => round2 (1 + r * 19))
  else
    s.map (fun x => round2 ((x - listMin s) / (listMax s - listMin s + 1/100000000) * 19 + 1))

theorem baseline_length_eq (mm : ℚ) (minutes : List ℚ) (s : List ℚ)
    (h : minutes.length = s.length) :
    (((minutes.zip s).filter (fun p => decide (mm ≤ p.1))).map (fun p => p.2)).length =
      (minutes.filter (fun m => decide (mm ≤ m))).length := by
  induction minutes generalizing s with
  | nil => simp
  | cons m ms ih =>
      match s with
      | [] => simp at h
      | x :: xs =>
          have hlen : ms.length = xs.length := by simpa using h
          by_cases hm : mm ≤ m
          · simp only [List.zip_cons_cons, List.filter_cons, List.length_map] at *
            simp [hm, ← ih xs hlen]
          · simp only [List.zip_cons_cons, List.filter_cons, List.length_map] at *
            simp [hm, ← ih xs hlen]

/-! ## Stage 4: `4_aggregate_player_stats.py` — per-90 rate computation

The per-90 columns are float divisions in pandas: dividing a nonzero value
by zero yields `inf`/`-inf` and `0/0` yields `NaN`, with no exception and no
row dropped.  `PVal` models an IEEE float value that is either a finite
rational or one of these special values. -/

/-- A pandas float cell: finite, `inf`, `-inf`, or `NaN`. -/
inductive PVal where
  | num (q : ℚ)
  | posInf
  | negInf
  | nan
deriving DecidableEq, Inhabited

/-- Float division as pandas performs it on Series: `a / 0` is `inf`, `-inf`
or `NaN` depending on the sign of `a`. -/
def pdiv (a b : ℚ) : PVal :=
  if b = 0 then
    if 0 < a then PVal.posInf else if a < 0 then PVal.negInf else PVal.nan
  else PVal.num (a / b)

/-- Multiplication of a float cell by the positive constant 100 (used by
`pass_accuracy = completed / passes * 100`). -/
def PVal.mul100 : PVal → PVal
  | PVal.num q => PVal.num (q * 100)
  | PVal.posInf => PVal.posInf
  | PVal.negInf => PVal.negInf
  | PVal.nan => PVal.nan

/-- `Series.fillna(0)` on one cell: NaN becomes 0, everything else (finite or
infinite) is kept. -/
def PVal.fillna0 : PVal → PVal
  | PVal.nan => PVal.num 0
  | v => v

/-- One row of the `groupby("player").agg(...)` result (lines 28-60): summed
counts per player. -/
structure MatchAgg where
  player : String
  minutes_played : ℚ
  matches_played : ℚ
  passes : ℚ
  completed_passes : ℚ
  key_passes : ℚ
  assists : ℚ
  shots : ℚ
  shots_on_target : ℚ
  goals : ℚ
  xG : ℚ
  xA : ℚ
  dribbles : ℚ
  dribbles_successful : ℚ
  tackles : ℚ
  tackles_won : ℚ
  interceptions : ℚ
  clearances : ℚ
  blocks : ℚ
  aerial_duels : ℚ
  aerial_duels_won : ℚ
  pressures : ℚ
  fouls_committed : ℚ
  fouls_won : ℚ
  cards_yellow : ℚ
  cards_red : ℚ
deriving DecidableEq, Inhabited

/-- An aggregated row extended with the per-90 columns (lines 66-100). -/
structure AggRates where
  base : MatchAgg
  passes_per90 : PVal
  completed_passes_per90 : PVal
  pass_accuracy : PVal
  key_passes_per90 : PVal
  assists_per90 : PVal
  shots_per90 : PVal
  shots_on_target_per90 : PVal
  goals_per90 : PVal
  xG_per90 : PVal
  xA_per90 : PVal
  dribbles_per90 : PVal
  dribbles_successful_per90 : PVal
  tackles_per90 : PVal
  tackles_won_per90 : PVal
  interceptions_per90 : PVal
  clearances_per90 : PVal
  blocks_per90 : PVal
  aerial_duels_per90 : PVal
  aerial_duels_won_per90 : PVal
  pressures_per90 : PVal
  fouls_committed_per90 : PVal
  fouls_won_per90 : PVal
deriving DecidableEq, Inhabited

/-- The per-90 computation of lines 66-100: `minutes_90 = minutes_played/90`,
each rate column is `count / minutes_90`, and
`pass_accuracy = (completed_passes / passes * 100).fillna(0)`. -/
def per90Extend (r : MatchAgg) : AggRates :=
  let minutes_90 := r.minutes_played / 90
  { base := r
    passes_per90 := pdiv r.passes minutes_90
    completed_passes_per90 := pdiv r.completed_passes minutes_90
    pass_accuracy := ((pdiv r.completed_passes r.passes).mul100).fillna0
    key_passes_per90 := pdiv r.key_passes minutes_90
    assists_per90 := pdiv r.assists minutes_90
    shots_per90 := pdiv r.shots minutes_90
    shots_on_target_per90 := pdiv r.shots_on_target minutes_90
    goals_per90 := pdiv r.goals minutes_90
    xG_per90 := pdiv r.xG minutes_90
    xA_per90 := pdiv r.xA minutes_90
    dribbles_per90 := pdiv r.dribbles minutes_90
    dribbles_successful_per90 := pdiv r.dribbles_successful minutes_90
    tackles_per90 := pdiv r.tackles minutes_90
    tackles_won_per90 := pdiv r.tackles_won minutes_90
    interceptions_per90 := pdiv r.interceptions minutes_90
    clearances_per90 := pdiv r.clearances minutes_90
    blocks_per90 := pdiv r.blocks minutes_90
    aerial_duels_per90 := pdiv r.aerial_duels minutes_90
    aerial_duels_won_per90 := pdiv r.aerial_duels_won minutes_90
    pressures_per90 := pdiv r.pressures minutes_90
    fouls_committed_per90 := pdiv r.fouls_committed minutes_90
    fouls_won_per90 := pdiv r.fouls_won minutes_90 }

/-- The rate-computation stage applied to the whole aggregated population:
every aggregated row, with no exclusion of any player, is extended with
per-90 columns and carried forward to the insert loop. -/
def aggregateStage (rows : List MatchAgg) : List AggRates :=
  rows.map per90Extend

/-- A `MatchAgg` row with every numeric field zero. -/
def MatchAgg.zero : MatchAgg :=
  { player := "", minutes_played := 0, matches_played := 0, passes := 0,
    completed_passes := 0, key_passes := 0, assists := 0, shots := 0,
    shots_on_target := 0, goals := 0, xG := 0, xA := 0, dribbles := 0,
    dribbles_successful := 0, tackles := 0, tackles_won := 0,
    interceptions := 0, clearances := 0, blocks := 0, aerial_duels := 0,
    aerial_duels_won := 0, pressures := 0, fouls_committed := 0,
    fouls_won := 0, cards_yellow := 0, cards_red := 0 }

/-! ## Stage 5: `5_calculate_player_attributes.py` — attributes, CA and PA

`df_stats` rows (the `player_stats` table joined with `players`).  The two
numpy random sources are passed explicitly: `d : ℕ → ℕ` is the stream of
`np.random.randint(18, 35)` draws assigned as ages (line 74), and
`z : ℕ → ℚ` is the stream of standard-normal draws used by `compute_PA`
(line 324, where `np.random.normal(0, variance) = variance * z`). -/

/-- One loaded `df_stats` row (numeric columns used by the attribute
calculations). -/
structure PlayerStats where
  minutes_played : ℚ
  competition_id : ℤ
  passes_per90 : ℚ
  pass_accuracy : ℚ
  key_passes_per90 : ℚ
  assists_per90 : ℚ
  goals_per90 : ℚ
  xG_per90 : ℚ
  shots_per90 : ℚ
  shots_on_target_per90 : ℚ
  dribbles_per90 : ℚ
  dribbles_successful_per90 : ℚ
  tackles_per90 : ℚ
  tackles_won_per90 : ℚ
  interceptions_per90 : ℚ
  clearances_per90 : ℚ
  aerial_duels_per90 : ℚ
  aerial_duels_won_per90 : ℚ
  pressures_per90 : ℚ
  saves_per90 : ℚ
  clean_sheets : ℚ
  goals_conceded_per90 : ℚ
deriving DecidableEq, Inhabited

/-- `get_league_coefficient` (lines 53-60): static lookup with default 0.8. -/
def get_league_coefficient (comp_id : ℤ) : ℚ :=
  if comp_id = 2 then 1.0 else if comp_id = 49 then 0.95
  else if comp_id = 11 then 0.9 else if comp_id = 12 then 0.85
  else if comp_id = 9 then 0.8 else if comp_id = 37 then 1.1
  else if comp_id = 38 then 0.9 else if comp_id = 55 then 0.8
  else if comp_id = 43 then 1.05 else if comp_id = 50 then 1.0
  else if comp_id = 72 then 0.85 else if comp_id = 44 then 0.8
  else if comp_id = 45 then 0.75 else 0.8

/-- `calculate_age_factor` (lines 62-71). -/
def calculate_age_factor (age : ℕ) : ℚ :=
  if age ≤ 21 then 1.1 else if age ≤ 25 then 1.05
  else if age ≤ 30 then 1.0 else 0.95

/-- `touches_per90` (line 36): `passes_per90 + dribbles_per90`. -/
def touches_per90 (st : PlayerStats) : ℚ :=
  st.passes_per90 + st.dribbles_per90

/-- Line 84: the pre-scale weighted value fed into `percentile_to_1_20` for
the `passing` attribute. -/
def passing_raw (st : PlayerStats) (age : ℕ) : ℚ :=
  (st.passes_per90 * 0.3 + st.pass_accuracy * 0.25 +
   st.key_passes_per90 * 0.25 + st.assists_per90 * 0.2) *
  get_league_coefficient st.competition_id * calculate_age_factor age

/-- Line 93: pre-scale value for `shooting`. -/
def shooting_raw (st : PlayerStats) (_age : ℕ) : ℚ :=
  (st.goals_per90 * 0.3 + st.xG_per90 * 0.25 +
   st.shots_on_target_per90 * 0.25 +
   (st.goals_per90 / (st.shots_per90 + 0.1)) * 0.2) *
  get_league_coefficient st.competition_id

/-- Line 101: pre-scale value for `dribbling`. -/
def dribbling_raw (st : PlayerStats) (_age : ℕ) : ℚ :=
  (st.dribbles_per90 * 0.4 + st.dribbles_successful_per90 * 0.4 +
   (st.dribbles_successful_per90 / (st.dribbles_per90 + 0.1)) * 0.2) *
  get_league_coefficient st.competition_id

/-- Line 108: pre-scale value for `first_touch`. -/
def first_touch_raw (st : PlayerStats) (age : ℕ) : ℚ :=
  (st.dribbles_successful_per90 * 0.4 + st.pass_accuracy * 0.3 +
   touches_per90 st * 0.3) * calculate_age_factor age

/-- Line 115: pre-scale value for `crossing`. -/
def crossing_raw (st : PlayerStats) (_age : ℕ) : ℚ :=
  (st.key_passes_per90 * 0.5 + st.assists_per90 * 0.3 +
   st.pass_accuracy * 0.2) * get_league_coefficient st.competition_id

/-- Line 122: pre-scale value for `finishing`. -/
def finishing_raw (st : PlayerStats) (_age : ℕ) : ℚ :=
  st.goals_per90 * 0.4 + st.shots_on_target_per90 * 0.3 +
  (st.goals_per90 / (st.xG_per90 + 0.1)) * 0.3

/-- Line 128: pre-scale value for `long_shots`. -/
def long_shots_raw (st : PlayerStats) (_age : ℕ) : ℚ :=
  (st.shots_per90 * 0.4 + st.xG_per90 * 0.3 +
   (st.shots_on_target_per90 / (st.shots_per90 + 0.1)) * 0.3) *
  get_league_coefficient st.competition_id

/-- Line 138: pre-scale value for `pace`. -/
def pace_raw (st : PlayerStats) (age : ℕ) : ℚ :=
  (st.dribbles_per90 * 0.4 + st.pressures_per90 * 0.3 +
   st.dribbles_successful_per90 * 0.3) * calculate_age_factor age

/-- Line 145: pre-scale value for `acceleration`. -/
def acceleration_raw (st : PlayerStats) (age : ℕ) : ℚ :=
  (st.dribbles_successful_per90 * 0.5 + st.dribbles_per90 * 0.3 +
   st.pressures_per90 * 0.2) * (if age ≤ 23 then 1.1 else 1.0)

/-- Line 152: pre-scale value for `stamina`. -/
def stamina_raw (st : PlayerStats) (age : ℕ) : ℚ :=
  (st.minutes_played / 1000 * 0.4 + st.pressures_per90 * 0.3 +
   st.tackles_per90 * 0.3) * (if 30 < age then 0.9 else 1.0)

/-- Line 159: pre-scale value for `strength`. -/
def strength_raw (st : PlayerStats) (age : ℕ) : ℚ :=
  (st.aerial_duels_per90 * 0.4 + st.tackles_per90 * 0.3 +
   st.aerial_duels_won_per90 * 0.3) *
  (if 25 ≤ age ∧ age ≤ 30 then 1.05 else 1.0)

/-- Line 166: pre-scale value for `jumping_reach`. -/
def jumping_reach_raw (st : PlayerStats) (age : ℕ) : ℚ :=
  (st.aerial_duels_won_per90 * 0.6 + st.aerial_duels_per90 * 0.4) *
  (if 25 ≤ age ∧ age ≤ 30 then 1.05 else 1.0)

/-- Line 175: pre-scale value for `positioning`. -/
def positioning_raw (st : PlayerStats) (age : ℕ) : ℚ :=
  (st.interceptions_per90 * 0.3 + st.key_passes_per90 * 0.25 +
   st.pressures_per90 * 0.25 + st.tackles_per90 * 0.2) *
  (if 28 ≤ age then 1.1 else 1.0)

/-- Line 183: pre-scale value for `vision`. -/
def vision_raw (st : PlayerStats) (_age : ℕ) : ℚ :=
  (st.key_passes_per90 * 0.4 + st.assists_per90 * 0.3 +
   st.passes_per90 * 0.3) * get_league_coefficient st.competition_id

/-- Line 190: pre-scale value for `composure`. -/
def composure_raw (st : PlayerStats) (_age : ℕ) : ℚ :=
  st.pass_accuracy * 0.4 + st.dribbles_successful_per90 * 0.3 +
  st.goals_per90 * 0.3

/-- Line 196: pre-scale value for `concentration`. -/
def concentration_raw (st : PlayerStats) (age : ℕ) : ℚ :=
  (st.interceptions_per90 * 0.4 + st.tackles_won_per90 * 0.3 +
   st.clearances_per90 * 0.3) * (if 26 ≤ age then 1.1 else 1.0)

/-- Line 203: pre-scale value for `decisions`. -/
def decisions_raw (st : PlayerStats) (age : ℕ) : ℚ :=
  (st.key_passes_per90 * 0.3 + st.tackles_won_per90 * 0.25 +
   st.dribbles_successful_per90 * 0.25 +
   (st.assists_per90 + st.goals_per90) * 0.2) *
  (if 24 ≤ age then 1.1 else 1.0)

/-- Line 211: pre-scale value for `leadership`. -/
def leadership_raw (st : PlayerStats) (age : ℕ) : ℚ :=
  (st.minutes_played / 1000 * 0.4 + st.assists_per90 * 0.3 +
   st.goals_per90 * 0.3) * (if 28 ≤ age then 1.2 else 1.0)

/-- Line 221: pre-scale value for `tackling`. -/
def tackling_raw (st : PlayerStats) (age : ℕ) : ℚ :=
  (st.tackles_won_per90 * 0.5 + st.tackles_per90 * 0.3 +
   (st.tackles_won_per90 / (st.tackles_per90 + 0.1)) * 0.2) *
  (if 25 ≤ age ∧ age ≤ 30 then 1.05 else 1.0)

/-- Line 228: pre-scale value for `marking`. -/
def marking_raw (st : PlayerStats) (age : ℕ) : ℚ :=
  (st.interceptions_per90 * 0.4 + st.pressures_per90 * 0.3 +
   st.tackles_per90 * 0.3) * (if 26 ≤ age then 1.1 else 1.0)

/-- Line 235: pre-scale value for `heading`. -/
def heading_raw (st : PlayerStats) (age : ℕ) : ℚ :=
  (st.aerial_duels_won_per90 * 0.6 + st.aerial_duels_per90 * 0.4) *
  (if 25 ≤ age ∧ age ≤ 30 then 1.05 else 1.0)

/-- Line 244: pre-scale value for `goalkeeping`. -/
def goalkeeping_raw (st : PlayerStats) (age : ℕ) : ℚ :=
  (st.saves_per90 * 0.4 + st.clean_sheets * 0.3 +
   (100 - st.goals_conceded_per90 * 10) * 0.3) *
  (if 26 ≤ age then 1.1 else 1.0)

/-- Line 251: pre-scale value for `reflexes`. -/
def reflexes_raw (st : PlayerStats) (age : ℕ) : ℚ :=
  st.saves_per90 * (if age ≤ 28 then 1.05 else 1.0)

/-- Line 256: pre-scale value for `handling`. -/
def handling_raw (st : PlayerStats) (age : ℕ) : ℚ :=
  (st.clean_sheets * 0.6 + st.pass_accuracy * 0.4) *
  (if 26 ≤ age then 1.1 else 1.0)

/-- Line 262: pre-scale value for `kicking`. -/
def kicking_raw (st : PlayerStats) (_age : ℕ) : ℚ :=
  (st.passes_per90 * 0.5 + st.pass_accuracy * 0.5) *
  get_league_coefficient st.competition_id

/-- The ~25 scaled sub-attribute columns of one player. -/
structure Attrs where
  passing : ℚ
  shooting : ℚ
  dribbling : ℚ
  first_touch : ℚ
  crossing : ℚ
  finishing : ℚ
  long_shots : ℚ
  pace : ℚ
  acceleration : ℚ
  stamina : ℚ
  strength : ℚ
  jumping_reach : ℚ
  positioning : ℚ
  vision : ℚ
  composure : ℚ
  concentration : ℚ
  decisions : ℚ
  leadership : ℚ
  tackling : ℚ
  marking : ℚ
  heading : ℚ
  goalkeeping : ℚ
  reflexes : ℚ
  handling : ℚ
  kicking : ℚ
deriving DecidableEq, Inhabited

/-- The four position archetypes of `compute_position_CA`. -/
inductive Pos where
  | GK
  | DEF
  | MID
  | FWD
deriving DecidableEq

/-- Ages assigned to the population (line 74):
`df_stats["age"] = np.random.randint(18, 35, len(df_stats))`, one draw per
row, reading nothing from the rows themselves. -/
def pipelineAges (stats : List PlayerStats) (d : ℕ → ℕ) : List ℕ :=
  (List.range stats.length).map d

/-- Scale one attribute across the whole population: build the pre-scale
weighted series from every row (zipped with its age draw) and feed it to
`percentile_to_1_20` with the population's `minutes_played` column. -/
def scaleAttr (stats : List PlayerStats) (ages : List ℕ)
    (f : PlayerStats → ℕ → ℚ) : List ℚ :=
  percentile_to_1_20 ((stats.zip ages).map (fun p => some (f p.1 p.2)))
    (stats.map (fun st => st.minutes_played)) 500

/-- `compute_position_CA` (lines 271-294): position-weighted sum of scaled
attributes, times league coefficient, times a position age-band factor,
rounded (Python `round(_, 2)`, half-to-even). -/
def compute_position_CA (a : Attrs) (comp_id : ℤ) (age : ℕ) (pos : Pos) : ℚ :=
  let base_ca :=
    match pos with
    | Pos.GK => a.goalkeeping * 0.4 + a.reflexes * 0.2 + a.handling * 0.2 +
        a.kicking * 0.2
    | Pos.DEF => a.tackling * 0.25 + a.marking * 0.25 + a.heading * 0.2 +
        a.positioning * 0.15 + a.pace * 0.15
    | Pos.MID => a.passing * 0.25 + a.vision * 0.2 + a.positioning * 0.15 +
        a.dribbling * 0.15 + a.tackling * 0.15 + a.stamina * 0.1
    | Pos.FWD => a.shooting * 0.3 + a.pace * 0.2 + a.dribbling * 0.2 +
        a.finishing * 0.15 + a.positioning * 0.15
  let age_factor : ℚ :=
    match pos with
    | Pos.GK => if 28 ≤ age ∧ age ≤ 32 then 1.1 else 1.0
    | Pos.DEF => if 26 ≤ age ∧ age ≤ 30 then 1.05 else 1.0
    | Pos.MID => if 24 ≤ age ∧ age ≤ 28 then 1.05 else 1.0
    | Pos.FWD => if 22 ≤ age ∧ age ≤ 26 then 1.05 else 1.0
  round2 (base_ca * get_league_coefficient comp_id * age_factor)

/-- `compute_PA` (lines 310-325).  `z` is the standard-normal draw for this
player; `np.random.normal(0, variance)` is `variance * z`. -/
def compute_PA (ca : ℚ) (age : ℕ) (z : ℚ) : ℚ :=
  let base_uplift : ℚ :=
    if age ≤ 20 then 6 else if age ≤ 24 then 4 else if age ≤ 28 then 2 else 0
  let variance : ℚ :=
    if age ≤ 20 then 2 else if age ≤ 24 then 1.5 else if age ≤ 28 then 1
    else 0.5
  let total_uplift := base_uplift + variance * z
  min 20 (max ca (ca + total_uplift))

/-- The output record per player: all scaled sub-attributes, the four
position CAs, overall CA, and PA. -/
structure AttrRow where
  attrs : Attrs
  CA_GK : ℚ
  CA_DEF : ℚ
  CA_MID : ℚ
  CA_FWD : ℚ
  CA : ℚ
  PA : ℚ
deriving DecidableEq, Inhabited

/-- The output row of player `i`: its scaled attribute values (index `i` of
each population-wide scaled column), its position CAs, overall CA
(line 302: `CA_GK*0.1 + CA_DEF*0.3 + CA_MID*0.3 + CA_FWD*0.3`, rounded to 2
decimals) and PA. -/
def mkRow (stats : List PlayerStats) (d : ℕ → ℕ) (z : ℕ → ℚ) (i : ℕ) :
    AttrRow :=
  let ages := pipelineAges stats d
  let g := fun (f : PlayerStats → ℕ → ℚ) => (scaleAttr stats ages f).getD i 0
  let a : Attrs :=
    { passing := g passing_raw
      shooting := g shooting_raw
      dribbling := g dribbling_raw
      first_touch := g first_touch_raw
      crossing := g crossing_raw
      finishing := g finishing_raw
      long_shots := g long_shots_raw
      pace := g pace_raw
      acceleration := g acceleration_raw
      stamina := g stamina_raw
      strength := g strength_raw
      jumping_reach := g jumping_reach_raw
      positioning := g positioning_raw
      vision := g vision_raw
      composure := g composure_raw
      concentration := g concentration_raw
      decisions := g decisions_raw
      leadership := g leadership_raw
      tackling := g tackling_raw
      marking := g marking_raw
      heading := g heading_raw
      goalkeeping := g goalkeeping_raw
      reflexes := g reflexes_raw
      handling := g handling_raw
      kicking := g kicking_raw }
  let st := stats.getD i default
  let age := ages.getD i 0
  let ca_gk := compute_position_CA a st.competition_id age Pos.GK
  let ca_def := compute_position_CA a st.competition_id age Pos.DEF
  let ca_mid := compute_position_CA a st.competition_id age Pos.MID
  let ca_fwd := compute_position_CA a st.competition_id age Pos.FWD
  let ca := round2 (ca_gk * 0.1 + ca_def * 0.3 + ca_mid * 0.3 + ca_fwd * 0.3)
  { attrs := a
    CA_GK := ca_gk
    CA_DEF := ca_def
    CA_MID := ca_mid
    CA_FWD := ca_fwd
    CA := ca
    PA := compute_PA ca age (z i) }

/-- The whole attribute-calculation pass over a nonempty population. -/
def pipeline (stats : List PlayerStats) (d : ℕ → ℕ) (z : ℕ → ℚ) :
    List AttrRow :=
  (List.range stats.length).map (mkRow stats d z)

/-- The stage entry (lines 28-31 + rest of the script): an empty
`player_stats` table aborts with the diagnostic (printed before `exit()`)
and no attribute table is produced; otherwise the computed table is the
result. -/
def calculate_player_attributes (stats : List PlayerStats) (d : ℕ → ℕ)
    (z : ℕ → ℚ) : Except String (List AttrRow) :=
  if stats.length = 0 then Except.error "No player stats found in database"
  else Except.ok (pipeline stats d z)

/-! ## Structural lemmas about the pipeline -/

theorem mem_pipeline {stats : List PlayerStats} {d : ℕ → ℕ} {z : ℕ → ℚ}
    {row : AttrRow} (h : row ∈ pipeline stats d z) :
    ∃ i, i < stats.length ∧ row = mkRow stats d z i := by
  unfold pipeline at h
  rcases List.mem_map.mp h with ⟨i, hi, rfl⟩
  exact ⟨i, List.mem_range.mp hi, rfl⟩

theorem mkRow_PA (stats : List PlayerStats) (d : ℕ → ℕ) (z : ℕ → ℚ) (i : ℕ) :
    (mkRow stats d z i).PA =
      compute_PA (mkRow stats d z i).CA ((pipelineAges stats d).getD i 0)
        (z i) := rfl

theorem mkRow_CA (stats : List PlayerStats) (d : ℕ → ℕ) (z : ℕ → ℚ) (i : ℕ) :
    (mkRow stats d z i).CA =
      round2 ((mkRow stats d z i).CA_GK * 0.1 + (mkRow stats d z i).CA_DEF * 0.3 +
        (mkRow stats d z i).CA_MID * 0.3 + (mkRow stats d z i).CA_FWD * 0.3) := rfl

theorem compute_PA_le_20 (ca : ℚ) (age : ℕ) (z : ℚ) :
    compute_PA ca age z ≤ 20 :=
  min_le_left _ _

theorem le_compute_PA {ca : ℚ} (age : ℕ) (z : ℚ) (hca : ca ≤ 20) :
    ca ≤ compute_PA ca age z :=
  le_min hca (le_trans (le_max_left _ _) (le_refl _))

theorem compute_PA_eq_20_of_20_le {ca : ℚ} (age : ℕ) (z : ℚ)
    (hca : 20 ≤ ca) : compute_PA ca age z = 20 :=
  min_eq_left (le_trans hca (le_max_left _ _))

/-! ## Evaluation lemmas for a single-player population

With one row and `minutes_played ≥ 500` the percentile branch is taken and
the single value has percentile rank 1, so every scaled attribute is 20. -/

theorem percentile_single (x m mm : ℚ) (hm : mm ≤ m) :
    percentile_to_1_20 [some x] [m] mm = [20] := by
  unfold percentile_to_1_20 rankPct avgRank
  simp [hm, List.filter_cons, List.countP_cons]
  norm_num [round2, rhe]

/-- The attribute vector of a lone qualifying player: every column is 20. -/
def attrs20 : Attrs :=
  ⟨20, 20, 20, 20, 20, 20, 20, 20, 20, 20, 20, 20, 20, 20, 20, 20, 20, 20,
   20, 20, 20, 20, 20, 20, 20⟩

theorem scaleAttr_single (st : PlayerStats) (age : ℕ)
    (f : PlayerStats → ℕ → ℚ) (hm : 500 ≤ st.minutes_played) :
    scaleAttr [st] [age] f = [20] := by
  unfold scaleAttr
  simp only [List.zip_cons_cons, List.zip_nil_right, List.map_cons,
    List.map_nil]
  exact percentile_single _ _ _ hm

theorem mkRow_single (st : PlayerStats) (d : ℕ → ℕ) (z : ℕ → ℚ)
    (hm : 500 ≤ st.minutes_played) :
    mkRow [st] d z 0 =
      (let a := attrs20
       let ca_gk := compute_position_CA a st.competition_id (d 0) Pos.GK
       let ca_def := compute_position_CA a st.competition_id (d 0) Pos.DEF
       let ca_mid := compute_position_CA a st.competition_id (d 0) Pos.MID
       let ca_fwd := compute_position_CA a st.competition_id (d 0) Pos.FWD
       let ca := round2 (ca_gk * 0.1 + ca_def * 0.3 + ca_mid * 0.3 +
         ca_fwd * 0.3)
       ⟨a, ca_gk, ca_def, ca_mid, ca_fwd, ca, compute_PA ca (d 0) (z 0)⟩) := by
  unfold mkRow pipelineAges
  simp only [List.length_cons, List.length_nil, List.range_succ,
    List.range_zero, List.nil_append, List.map_cons, List.map_nil,
    scaleAttr_single st (d 0) _ hm, List.getD_cons_zero]
  rfl

theorem pipeline_single (st : PlayerStats) (d : ℕ → ℕ) (z : ℕ → ℚ) :
    pipeline [st] d z = [mkRow [st] d z 0] := by
  unfold pipeline
  simp [List.range_succ]

/-- A `PlayerStats` row with every numeric field zero. -/
def PlayerStats.zero : PlayerStats :=
  { minutes_played := 0, competition_id := 0, passes_per90 := 0,
    pass_accuracy := 0, key_passes_per90 := 0, assists_per90 := 0,
    goals_per90 := 0, xG_per90 := 0, shots_per90 := 0,
    shots_on_target_per90 := 0, dribbles_per90 := 0,
    dribbles_successful_per90 := 0, tackles_per90 := 0,
    tackles_won_per90 := 0, interceptions_per90 := 0, clearances_per90 := 0,
    aerial_duels_per90 := 0, aerial_duels_won_per90 := 0,
    pressures_per90 := 0, saves_per90 := 0, clean_sheets := 0,
    goals_conceded_per90 := 0 }

/-! ## C1: PA vs CA bounds -/

/-- A qualifying lone player in competition 37 (league coefficient 1.1).
With the age draw 28 its position CAs are 24.2 / 23.1 / 23.1 / 22.0, so its
overall CA is 22.88 — above 20. -/
def caOver20Player : PlayerStats :=
  { PlayerStats.zero with minutes_played := 900, competition_id := 37 }

/-- C1 counterexample: a pipeline-reachable player whose overall CA is 22.88
(> 20).  `compute_PA` caps PA at 20, so PA = 20 < CA: the claimed invariant
`PA >= CA` fails whenever CA itself exceeds 20. -/
theorem pa_below_ca_counterexample :
    ((pipeline [caOver20Player] (fun _ => 28) (fun _ => 0)).getD 0 default).CA
        = 22.88 ∧
    ((pipeline [caOver20Player] (fun _ => 28) (fun _ => 0)).getD 0 default).PA
        = 20 ∧
    ¬ (((pipeline [caOver20Player] (fun _ => 28) (fun _ => 0)).getD 0
          default).CA ≤
        ((pipeline [caOver20Player] (fun _ => 28) (fun _ => 0)).getD 0
          default).PA) := by
  have h : (500 : ℚ) ≤ caOver20Player.minutes_played := by
    norm_num [caOver20Player, PlayerStats.zero]
  have hrow := mkRow_single caOver20Player (fun _ => 28) (fun _ => 0) h
  have hpipe : (pipeline [caOver20Player] (fun _ => 28) (fun _ => 0)).getD 0
      default = mkRow [caOver20Player] (fun _ => 28) (fun _ => 0) 0 := by
    rw [pipeline_single]
    rfl
  rw [hpipe, hrow]
  norm_num [compute_position_CA, get_league_coefficient, attrs20,
    caOver20Player, PlayerStats.zero, compute_PA, round2, rhe]

/-- C1 (amended): for every player in the pipeline output, PA ≤ 20 always;
PA ≥ CA holds whenever CA ≤ 20; and when CA exceeds 20 the cap wins and
PA = 20 < CA. -/
theorem pa_bounds_in_pipeline (stats : List PlayerStats) (d : ℕ → ℕ)
    (z : ℕ → ℚ) (row : AttrRow) (h : row ∈ pipeline stats d z) :
    row.PA ≤ 20 ∧ (row.CA ≤ 20 → row.CA ≤ row.PA) ∧
      (20 < row.CA → row.PA = 20) := by
  rcases mem_pipeline h with ⟨i, _, rfl⟩
  rw [mkRow_PA]
  exact ⟨compute_PA_le_20 _ _ _,
    fun hca => le_compute_PA _ _ hca,
    fun hca => compute_PA_eq_20_of_20_le _ _ (le_of_lt hca)⟩

theorem pa_bounds_in_pipeline_witness :
    (mkRow [caOver20Player] (fun _ => 28) (fun _ => 0) 0).PA ≤ 20 ∧
    ((mkRow [caOver20Player] (fun _ => 28) (fun _ => 0) 0).CA ≤ 20 →
      (mkRow [caOver20Player] (fun _ => 28) (fun _ => 0) 0).CA ≤
        (mkRow [caOver20Player] (fun _ => 28) (fun _ => 0) 0).PA) ∧
    (20 < (mkRow [caOver20Player] (fun _ => 28) (fun _ => 0) 0).CA →
      (mkRow [caOver20Player] (fun _ => 28) (fun _ => 0) 0).PA = 20) :=
  pa_bounds_in_pipeline [caOver20Player] (fun _ => 28) (fun _ => 0) _
    (by simp [pipeline_single])

/-! ## C4: overall CA formula -/

/-- The versatility factor exactly as the spec words it: from the spread of
the four position CAs, `1 + 0.1*(max-min)/max`, capped at 1.2, equal to 1.0
if the max is 0.  (No such factor appears anywhere in the source.) -/
def versatility_spec (gk de mi fw : ℚ) : ℚ :=
  let mx := max (max gk de) (max mi fw)
  let mn := min (min gk de) (min mi fw)
  if mx = 0 then 1 else min 1.2 (1 + 0.1 * (mx - mn) / mx)

/-- The overall-CA formula as the spec words it: the weighted blend of the
four position CAs (weights 0.1/0.3/0.3/0.3) multiplied by the versatility
factor and a consistency factor `cons`, rounded to 2 decimals. -/
def CA_spec_formula (gk de mi fw cons : ℚ) : ℚ :=
  round2 ((gk * 0.1 + de * 0.3 + mi * 0.3 + fw * 0.3) *
    versatility_spec gk de mi fw * cons)

/-- A qualifying lone player in competition 2 (league coefficient 1.0).
With the age draw 24 its position CAs are 20 / 20 / 21 / 21 (the MID and
FWD age bands fire), so the blend is 20.6 while the spec formula with its
versatility factor 1 + 0.1*(21-20)/21 gives 20.7. -/
def versatilePlayer : PlayerStats :=
  { PlayerStats.zero with minutes_played := 900, competition_id := 2 }

/-- C4 counterexample: the code's overall CA is the bare rounded blend
(20.6 here); the spec formula — even with the consistency factor at its
neutral value 1, i.e. a player below any experience threshold — yields 20.7
because of the versatility factor.  The claimed equation fails. -/
theorem ca_versatility_counterexample :
    ((pipeline [versatilePlayer] (fun _ => 24) (fun _ => 0)).getD 0
        default).CA = 20.6 ∧
    CA_spec_formula
        ((pipeline [versatilePlayer] (fun _ => 24) (fun _ => 0)).getD 0
          default).CA_GK
        ((pipeline [versatilePlayer] (fun _ => 24) (fun _ => 0)).getD 0
          default).CA_DEF
        ((pipeline [versatilePlayer] (fun _ => 24) (fun _ => 0)).getD 0
          default).CA_MID
        ((pipeline [versatilePlayer] (fun _ => 24) (fun _ => 0)).getD 0
          default).CA_FWD 1 = 20.7 ∧
    ((pipeline [versatilePlayer] (fun _ => 24) (fun _ => 0)).getD 0
        default).CA ≠
      CA_spec_formula
        ((pipeline [versatilePlayer] (fun _ => 24) (fun _ => 0)).getD 0
          default).CA_GK
        ((pipeline [versatilePlayer] (fun _ => 24) (fun _ => 0)).getD 0
          default).CA_DEF
        ((pipeline [versatilePlayer] (fun _ => 24) (fun _ => 0)).getD 0
          default).CA_MID
        ((pipeline [versatilePlayer] (fun _ => 24) (fun _ => 0)).getD 0
          default).CA_FWD 1 := by
  have h : (500 : ℚ) ≤ versatilePlayer.minutes_played := by
    norm_num [versatilePlayer, PlayerStats.zero]
  have hrow := mkRow_single versatilePlayer (fun _ => 24) (fun _ => 0) h
  have hpipe : (pipeline [versatilePlayer] (fun _ => 24) (fun _ => 0)).getD 0
      default = mkRow [versatilePlayer] (fun _ => 24) (fun _ => 0) 0 := by
    rw [pipeline_single]
    rfl
  rw [hpipe, hrow]
  norm_num [compute_position_CA, get_league_coefficient, attrs20,
    versatilePlayer, PlayerStats.zero, CA_spec_formula, versatility_spec,
    round2, rhe, min_def, max_def]

/-- C4 (amended): the overall CA of every pipeline row is exactly the
rounded weighted blend `CA_GK*0.1 + CA_DEF*0.3 + CA_MID*0.3 + CA_FWD*0.3`;
no versatility factor and no consistency factor are applied. -/
theorem ca_is_plain_weighted_blend (stats : List PlayerStats) (d : ℕ → ℕ)
    (z : ℕ → ℚ) (row : AttrRow) (h : row ∈ pipeline stats d z) :
    row.CA = round2 (row.CA_GK * 0.1 + row.CA_DEF * 0.3 + row.CA_MID * 0.3 +
      row.CA_FWD * 0.3) := by
  rcases mem_pipeline h with ⟨i, _, rfl⟩
  exact mkRow_CA stats d z i

theorem ca_is_plain_weighted_blend_witness :
    (mkRow [versatilePlayer] (fun _ => 24) (fun _ => 0) 0).CA =
      round2 ((mkRow [versatilePlayer] (fun _ => 24) (fun _ => 0) 0).CA_GK * 0.1 +
        (mkRow [versatilePlayer] (fun _ => 24) (fun _ => 0) 0).CA_DEF * 0.3 +
        (mkRow [versatilePlayer] (fun _ => 24) (fun _ => 0) 0).CA_MID * 0.3 +
        (mkRow [versatilePlayer] (fun _ => 24) (fun _ => 0) 0).CA_FWD * 0.3) :=
  ca_is_plain_weighted_blend [versatilePlayer] (fun _ => 24) (fun _ => 0) _
    (by simp [pipeline_single])

/-! ## C5: run-to-run reproducibility -/

/-- C5 counterexample: two runs on the identical one-player input with the
identical PA random draws (`z = 0` in both) but different age draws — 24 in
one run, 20 in the other, both legitimate `np.random.randint(18, 35)`
outputs — produce different composite ratings (CA 20.6 vs 20.0).  Seeding
only PA's random term does not make the output bit-identical, because the
age assignment (line 74) is a second, independent random source that feeds
every age-dependent factor. -/
theorem pipeline_age_randomness_counterexample :
    ((pipeline [versatilePlayer] (fun _ => 24) (fun _ => 0)).getD 0
        default).CA = 20.6 ∧
    ((pipeline [versatilePlayer] (fun _ => 20) (fun _ => 0)).getD 0
        default).CA = 20 ∧
    ((pipeline [versatilePlayer] (fun _ => 24) (fun _ => 0)).getD 0
        default).CA ≠
      ((pipeline [versatilePlayer] (fun _ => 20) (fun _ => 0)).getD 0
        default).CA := by
  have h : (500 : ℚ) ≤ versatilePlayer.minutes_played := by
    norm_num [versatilePlayer, PlayerStats.zero]
  have hrow24 := mkRow_single versatilePlayer (fun _ => 24) (fun _ => 0) h
  have hrow20 := mkRow_single versatilePlayer (fun _ => 20) (fun _ => 0) h
  have hpipe24 : (pipeline [versatilePlayer] (fun _ => 24) (fun _ => 0)).getD
      0 default = mkRow [versatilePlayer] (fun _ => 24) (fun _ => 0) 0 := by
    rw [pipeline_single]
    rfl
  have hpipe20 : (pipeline [versatilePlayer] (fun _ => 20) (fun _ => 0)).getD
      0 default = mkRow [versatilePlayer] (fun _ => 20) (fun _ => 0) 0 := by
    rw [pipeline_single]
    rfl
  rw [hpipe24, hpipe20, hrow24, hrow20]
  norm_num [compute_position_CA, get_league_coefficient, attrs20,
    versatilePlayer, PlayerStats.zero, round2, rhe]

/-- C5 (amended): the pipeline is a pure function of the input rows and of
the two random streams.  Two runs with identical input, identical age draws
and identical PA draws produce bit-identical attribute vectors and
composite ratings. -/
theorem pipeline_deterministic (stats₁ stats₂ : List PlayerStats)
    (d₁ d₂ : ℕ → ℕ) (z₁ z₂ : ℕ → ℚ) (hs : stats₁ = stats₂)
    (hd : ∀ i, d₁ i = d₂ i) (hz : ∀ i, z₁ i = z₂ i) :
    pipeline stats₁ d₁ z₁ = pipeline stats₂ d₂ z₂ := by
  subst hs
  have hd' : d₁ = d₂ := funext hd
  have hz' : z₁ = z₂ := funext hz
  rw [hd', hz']

theorem pipeline_deterministic_witness :
    pipeline [versatilePlayer] (fun _ => 24) (fun _ => 0) =
      pipeline [versatilePlayer] (fun _ => 24) (fun _ => 0) :=
  pipeline_deterministic [versatilePlayer] [versatilePlayer] _ _ _ _ rfl
    (fun _ => rfl) (fun _ => rfl)

/-! ## C8: empty population -/

/-- C8: with zero player records the stage computes no attributes and
aborts with the diagnostic `"No player stats found in database"` (printed
before `exit()` at lines 28-31) instead of emitting an empty attribute
table. -/
theorem empty_population_aborts (d : ℕ → ℕ) (z : ℕ → ℚ) :
    calculate_player_attributes [] d z =
      Except.error "No player stats found in database" := rfl

/-! ## C9: the age draw -/

/-- C9: provided each raw draw obeys `np.random.randint(18, 35)`'s contract
(a value in `[18, 35)`), every age assigned to the population lies in
`[18, 34]`; and the assigned ages depend only on the number of input rows
and the draws — never on any field of the player records. -/
theorem ages_random_and_bounded (stats stats' : List PlayerStats)
    (d : ℕ → ℕ) (hd : ∀ i, 18 ≤ d i ∧ d i < 35)
    (hlen : stats.length = stats'.length) :
    (∀ a ∈ pipelineAges stats d, 18 ≤ a ∧ a ≤ 34) ∧
      pipelineAges stats d = pipelineAges stats' d := by
  constructor
  · intro a ha
    rcases List.mem_map.mp ha with ⟨i, _, rfl⟩
    have := hd i
    omega
  · unfold pipelineAges
    rw [hlen]

theorem ages_random_and_bounded_witness :
    (∀ a ∈ pipelineAges [caOver20Player] (fun _ => 28), 18 ≤ a ∧ a ≤ 34) ∧
      pipelineAges [caOver20Player] (fun _ => 28) =
        pipelineAges [versatilePlayer] (fun _ => 28) :=
  ages_random_and_bounded [caOver20Player] [versatilePlayer] (fun _ => 28)
    (fun _ => by norm_num) rfl

/-! ## C2: zero-minute players in the rate stage -/

/-- An aggregated player with zero minutes played but five recorded passes
(e.g. all of its match rows carry 0 minutes). -/
def zeroMinutePlayer : MatchAgg :=
  { MatchAgg.zero with player := "Zero Minutes", passes := 5 }

/-- C2 counterexample: the zero-minute player is NOT excluded before per-90
computation — the stage output still contains it, its `passes_per90` is
`5 / (0/90) = inf` and its `assists_per90` is `0/0 = NaN`.  No branch of
`4_aggregate_player_stats.py` filters on `minutes_played`. -/
theorem zero_minutes_not_excluded_counterexample :
    (aggregateStage [zeroMinutePlayer]).length = 1 ∧
    ((aggregateStage [zeroMinutePlayer]).getD 0 default).base =
      zeroMinutePlayer ∧
    zeroMinutePlayer.minutes_played = 0 ∧
    ((aggregateStage [zeroMinutePlayer]).getD 0 default).passes_per90 =
      PVal.posInf ∧
    ((aggregateStage [zeroMinutePlayer]).getD 0 default).assists_per90 =
      PVal.nan := by
  refine ⟨rfl, rfl, rfl, ?_, ?_⟩ <;>
    norm_num [aggregateStage, per90Extend, pdiv, zeroMinutePlayer,
      MatchAgg.zero]

/-- C2 (amended): the rate stage keeps every aggregated row — the output is
the input population, each row merely extended with per-90 columns — and a
zero-minute player with a positive count is assigned an `inf` rate (a
zero count gives `NaN`), not excluded and not given a zero rate. -/
theorem zero_minutes_kept_with_inf_rates (rows : List MatchAgg)
    (r : MatchAgg) (h0 : r.minutes_played = 0) (hp : 0 < r.passes) :
    (aggregateStage rows).map (fun x => x.base) = rows ∧
      (per90Extend r).passes_per90 = PVal.posInf := by
  constructor
  · unfold aggregateStage
    rw [List.map_map]
    have : ((fun x : AggRates => x.base) ∘ per90Extend) = id := by
      funext x
      rfl
    rw [this, List.map_id]
  · unfold per90Extend pdiv
    rw [h0]
    norm_num [hp]

theorem zero_minutes_kept_with_inf_rates_witness :
    (aggregateStage [zeroMinutePlayer]).map (fun x => x.base) =
        [zeroMinutePlayer] ∧
      (per90Extend zeroMinutePlayer).passes_per90 = PVal.posInf :=
  zero_minutes_kept_with_inf_rates [zeroMinutePlayer] zeroMinutePlayer rfl
    (by norm_num [zeroMinutePlayer, MatchAgg.zero])

/-! ## C6: the end-to-end passing scenario -/

/-- The spec's end-to-end scenario player: 450 passes, 400 completed, 20 key
passes, 3 assists over 900 minutes (10 full matches). -/
def scenarioAgg : MatchAgg :=
  { MatchAgg.zero with
      player := "Scenario"
      minutes_played := 900
      matches_played := 10
      passes := 450
      completed_passes := 400
      key_passes := 20
      assists := 3 }

/-- The scenario player's per-90 values carried into stage 5, in competition
2 (league coefficient 1.0); `pass_accuracy` is the unrounded
`400/450*100 = 800/9`. -/
def scenarioStats : PlayerStats :=
  { PlayerStats.zero with
      minutes_played := 900
      competition_id := 2
      passes_per90 := 45
      pass_accuracy := 800/9
      key_passes_per90 := 2
      assists_per90 := 3/10 }

/-- C6 counterexample: the pipeline's `pass_accuracy` for the scenario is
the unrounded `800/9 = 88.888…`, not `88.89`; the passing weighted sum with
league coefficient 1.0 (competition 2) and age factor 1.0 (age 27) is
`16327/450 = 36.2822…`, not `35.8225`; and even the spec's own numbers
`45*0.3 + 88.89*0.25 + 2*0.25 + 0.3*0.2` sum to `36.2825`, not `35.8225`. -/
theorem passing_scenario_counterexample :
    (per90Extend scenarioAgg).passes_per90 = PVal.num 45 ∧
    (per90Extend scenarioAgg).pass_accuracy = PVal.num (800/9) ∧
    (per90Extend scenarioAgg).pass_accuracy ≠ PVal.num 88.89 ∧
    (per90Extend scenarioAgg).key_passes_per90 = PVal.num 2 ∧
    (per90Extend scenarioAgg).assists_per90 = PVal.num 0.3 ∧
    get_league_coefficient scenarioStats.competition_id = 1 ∧
    calculate_age_factor 27 = 1 ∧
    passing_raw scenarioStats 27 = 16327/450 ∧
    (16327/450 : ℚ) ≠ 35.8225 ∧
    (45 * (0.3 : ℚ) + 88.89 * 0.25 + 2 * 0.25 + 0.3 * 0.2) = 36.2825 := by
  refine ⟨?_, ?_, ?_, ?_, ?_, ?_, ?_, ?_, ?_, ?_⟩ <;>
    norm_num [per90Extend, pdiv, PVal.mul100, PVal.fillna0, scenarioAgg,
      MatchAgg.zero, scenarioStats, PlayerStats.zero, passing_raw,
      get_league_coefficient, calculate_age_factor, touches_per90]

/-- C6 (amended): the scenario yields `passes_per90 = 45`,
`pass_accuracy = 800/9` (≈ 88.8889, stored unrounded),
`key_passes_per90 = 2`, `assists_per90 = 0.3`, and the pre-scale passing
weighted sum with league coefficient 1.0 and age factor 1.0 is
`16327/450` ≈ 36.2822. -/
theorem passing_scenario_values :
    (per90Extend scenarioAgg).passes_per90 = PVal.num 45 ∧
    (per90Extend scenarioAgg).pass_accuracy = PVal.num (800/9) ∧
    (per90Extend scenarioAgg).key_passes_per90 = PVal.num 2 ∧
    (per90Extend scenarioAgg).assists_per90 = PVal.num 0.3 ∧
    passing_raw scenarioStats 27 = 16327/450 := by
  refine ⟨?_, ?_, ?_, ?_, ?_⟩ <;>
    norm_num [per90Extend, pdiv, PVal.mul100, PVal.fillna0, scenarioAgg,
      MatchAgg.zero, scenarioStats, PlayerStats.zero, passing_raw,
      get_league_coefficient, calculate_age_factor, touches_per90]

/-! ## C3: the scaler against the spec's contract -/

/-- The percentile scaler exactly as the spec words its contract:
`scaled[i] = 1 + 19 * percentile_rank(x_i)` with percentile rank over the
entire population (average-rank ties, `rankPct`), missing values treated as
0, rounded to 2 decimals; and the min-max fallback
`1 + 19*(x-min)/(max-min+1e-8)` exactly when the qualifying mask
(`minutes_played ≥ min_minutes`) selects zero players. -/
def percentileScaler_spec (series : List (Option ℚ)) (minutes : List ℚ)
    (min_minutes : ℚ) : List ℚ :=
  let s := series.map (fun x => x.getD 0)
  if (minutes.filter (fun m => decide (min_minutes ≤ m))).length = 0 then
    s.map (fun x => round2 (1 + 19 * (x - listMin s) /
      (listMax s - listMin s + 1/100000000)))
  else
    (rankPct s).map (fun r => round2 (1 + 19 * r))

/-- C3: on series and minutes columns of equal length (they share the
`df_stats` index in every call site), the source's `percentile_to_1_20`
computes exactly the spec's contract, fallback condition included. -/
theorem scaler_matches_spec (series : List (Option ℚ)) (minutes : List ℚ)
    (h : series.length = minutes.length) :
    percentile_to_1_20 series minutes 500 =
      percentileScaler_spec series minutes 500 := by
  unfold percentile_to_1_20 percentileScaler_spec
  have hb : (((minutes.zip (series.map (fun x => x.getD 0))).filter
      (fun p => decide ((500:ℚ) ≤ p.1))).map (fun p => p.2)).length =
      (minutes.filter (fun m => decide ((500:ℚ) ≤ m))).length :=
    baseline_length_eq 500 minutes _ (by rw [List.length_map, ← h])
  by_cases hm : (minutes.filter (fun m => decide ((500:ℚ) ≤ m))).length = 0
  · rw [if_neg, if_pos hm]
    · apply List.map_congr_left
      intro x _
      congr 1
      ring
    · rw [hb, hm]
      simp
  · rw [if_pos, if_neg hm]
    · apply List.map_congr_left
      intro r _
      congr 1
      ring
    · rw [hb]
      omega

theorem scaler_matches_spec_witness :
    percentile_to_1_20 [some 1, some 2] [600, 0] 500 =
      percentileScaler_spec [some 1, some 2] [600, 0] 500 :=
  scaler_matches_spec [some 1, some 2] [600, 0] rfl

/-! ## C7: monotonicity of the scaler -/

theorem getD_map_of_lt (f : ℚ → ℚ) (s : List ℚ) {i : ℕ} (h : i < s.length)
    (d : ℚ) : (s.map f).getD i d = f (s.getD i 0) := by
  rw [List.getD_eq_getElem _ _ (by simpa using h),
    List.getD_eq_getElem _ _ h, List.getElem_map]

theorem rankPct_getD (s : List ℚ) {i : ℕ} (h : i < s.length) (d : ℚ) :
    (rankPct s).getD i d = avgRank s (s.getD i 0) / (s.length : ℚ) := by
  unfold rankPct
  exact getD_map_of_lt _ s h d

/-- C7: the scaler is monotone.  For any two positions of the input series
whose (NaN-filled) values satisfy `b < a`, the scaled output at the `a`
position is at least the scaled output at the `b` position — in the
percentile-rank branch via average-rank monotonicity, in the min-max
fallback branch via the positive denominator. -/
theorem scaler_monotone (series : List (Option ℚ)) (minutes : List ℚ)
    (mm : ℚ) (i j : ℕ) (hi : i < series.length) (hj : j < series.length)
    (hab : (series.map (fun x => x.getD 0)).getD j 0 <
      (series.map (fun x => x.getD 0)).getD i 0) :
    (percentile_to_1_20 series minutes mm).getD j 0 ≤
      (percentile_to_1_20 series minutes mm).getD i 0 := by
  have hsi : i < (series.map (fun x => x.getD 0)).length := by
    rw [List.length_map]; exact hi
  have hsj : j < (series.map (fun x => x.getD 0)).length := by
    rw [List.length_map]; exact hj
  have hne : (series.map (fun x => x.getD 0)) ≠ [] :=
    List.ne_nil_of_length_pos (lt_of_le_of_lt (Nat.zero_le i) hsi)
  have hnpos : (0 : ℚ) < ((series.map (fun x => x.getD 0)).length : ℚ) := by
    exact_mod_cast lt_of_le_of_lt (Nat.zero_le i) hsi
  unfold percentile_to_1_20
  dsimp only
  split
  · have hmi : i < (rankPct (series.map (fun x => x.getD 0))).length := by
      unfold rankPct; rw [List.length_map]; exact hsi
    have hmj : j < (rankPct (series.map (fun x => x.getD 0))).length := by
      unfold rankPct; rw [List.length_map]; exact hsj
    rw [getD_map_of_lt _ _ hmi, getD_map_of_lt _ _ hmj,
      rankPct_getD _ hsi, rankPct_getD _ hsj]
    apply round2_mono
    have hr := avgRank_mono (series.map (fun x => x.getD 0)) hab
    have hdiv := (div_le_div_iff_of_pos_right hnpos).mpr hr
    nlinarith [hdiv]
  · rw [getD_map_of_lt _ _ hsi, getD_map_of_lt _ _ hsj]
    apply round2_mono
    have hminmax := listMin_le_listMax hne
    have hD : (0 : ℚ) < listMax (series.map (fun x => x.getD 0)) -
        listMin (series.map (fun x => x.getD 0)) + 1/100000000 := by
      linarith
    have hsub : (series.map (fun x => x.getD 0)).getD j 0 -
        listMin (series.map (fun x => x.getD 0)) ≤
        (series.map (fun x => x.getD 0)).getD i 0 -
        listMin (series.map (fun x => x.getD 0)) := by linarith
    have hdiv := (div_le_div_iff_of_pos_right hD).mpr hsub
    nlinarith [hdiv]

theorem scaler_monotone_witness :
    (percentile_to_1_20 [some 1, some 2] [600] 500).getD 0 0 ≤
      (percentile_to_1_20 [some 1, some 2] [600] 500).getD 1 0 :=
  scaler_monotone [some 1, some 2] [600] 500 1 0 (by norm_num) (by norm_num)
    (by norm_num)

/-! ## C10: the qualifying mask is never used beyond its emptiness test -/

/-- C10: whenever the qualifying mask selects at least one player, the
scaled output is the same for every minutes column and threshold — the
`baseline` subset is computed but its values never influence the result. -/
theorem scaler_ignores_mask (series : List (Option ℚ))
    (minutes₁ minutes₂ : List ℚ) (mm₁ mm₂ : ℚ)
    (h₁ : series.length = minutes₁.length)
    (h₂ : series.length = minutes₂.length)
    (hq₁ : 0 < (minutes₁.filter (fun m => decide (mm₁ ≤ m))).length)
    (hq₂ : 0 < (minutes₂.filter (fun m => decide (mm₂ ≤ m))).length) :
    percentile_to_1_20 series minutes₁ mm₁ =
      percentile_to_1_20 series minutes₂ mm₂ := by
  unfold percentile_to_1_20
  dsimp only
  rw [if_pos, if_pos]
  · exact ⟨hq₂, by
      rw [baseline_length_eq mm₂ minutes₂ _ (by rw [List.length_map, ← h₂])]
      exact hq₂⟩
  · exact ⟨hq₁, by
      rw [baseline_length_eq mm₁ minutes₁ _ (by rw [List.length_map, ← h₁])]
      exact hq₁⟩

theorem scaler_ignores_mask_witness :
    percentile_to_1_20 [some 1] [600] 500 =
      percentile_to_1_20 [some 1] [700] 400 :=
  scaler_ignores_mask [some 1] [600] [700] 500 400 rfl rfl (by norm_num)
    (by norm_num)

end Football
